import Mathlib

/-!
Verification of the Task Execution Engine of this repository.

The definitions below are a shallow embedding of the Python sources
`src/agent/utils/cost_efficient_ops_new.py` (TaskMetadataStore,
TaskExecutorAgent, StructuredTaskProcessor, TaskMemory) and
`src/agent/utils/cost_optimizer.py` (parse_task_type, CostTracker).

Modelling conventions, used consistently:
* Python dicts serving as records become Lean structures whose `Option`
  fields model absent keys; dynamic `Any` payloads that are either a
  string or a flat string-valued mapping become the sum type `TContent`.
* The file system is a finite map from resolved absolute paths
  (lists of components) to file contents (strings); the task store is a
  finite map from task id to record, mirroring one JSON file per task.
* `datetime.now().isoformat()` is modelled by a strictly increasing
  abstract clock rendered to a string, and `uuid.uuid4()` by a fresh
  counter; both are environmental nondeterminism made deterministic.
* Python exception messages are abbreviated to their exception kind
  (for example "TypeError"); control flow of try/except is preserved.
* `json.load` on a modification target is modelled by a parser for flat
  JSON objects with string values, the shapes this subsystem writes;
  JSON text outside this fragment is treated as unparseable.
-/

/-- Lookup in an association list (first binding wins), as a Python dict read. -/
def lookupA {α : Type} {β : Type} [DecidableEq α] : List (α × β) → α → Option β
  | [], _ => none
  | p :: rest, k => if p.1 = k then some p.2 else lookupA rest k

/-- Update or insert a binding in an association list (Python dict write). -/
def setA {α : Type} {β : Type} [DecidableEq α] : List (α × β) → α → β → List (α × β)
  | [], k, v => [(k, v)]
  | p :: rest, k, v => if p.1 = k then (k, v) :: rest else p :: setA rest k v

theorem lookupA_setA_self {α β : Type} [DecidableEq α] (l : List (α × β)) (k : α) (v : β) :
    lookupA (setA l k v) k = some v := by
  induction l with
  | nil => simp [setA, lookupA]
  | cons p rest ih =>
    by_cases h : p.1 = k
    · simp [setA, h, lookupA]
    · simp [setA, h, lookupA, ih]

theorem lookupA_setA_ne {α β : Type} [DecidableEq α] (l : List (α × β)) (k k' : α) (v : β)
    (h : k' ≠ k) : lookupA (setA l k v) k' = lookupA l k' := by
  induction l with
  | nil => simp [setA, lookupA, Ne.symm h]
  | cons p rest ih =>
    by_cases hp : p.1 = k
    · simp [setA, lookupA, hp, Ne.symm h]
    · by_cases hp' : p.1 = k'
      · simp [setA, lookupA, hp, hp', h]
      · simp [setA, lookupA, hp, hp', ih]

/-! ## Path model

`pathlib` joining and OS-level resolution.  A path is a list of components
(absolute, rooted at "/").  `Path(base) / target` keeps the target verbatim
when it is relative (pathlib drops "." and empty components but keeps "..")
and replaces the base when the target is absolute.  The operating system
resolves ".." components when the file is opened, which `normalize` models. -/

/-- Split a character list on '/' separators. -/
def splitComps : List Char → List Char → List String
  | acc, [] => [String.mk acc.reverse]
  | acc, c :: cs => if c = '/' then String.mk acc.reverse :: splitComps [] cs else splitComps (c :: acc) cs

/-- Components of a target path as pathlib parses them ("." and "" dropped). -/
def targetComponents (t : String) : List String :=
  (splitComps [] t.data).filter (fun c => !(c == "" || c == "."))

/-- Whether a target string is an absolute path. -/
def isAbsoluteTarget (t : String) : Bool :=
  match t.data with
  | c :: _ => c = '/'
  | [] => false

/-- `self.base_dir / task["target"]`: pathlib join, unnormalized. -/
def joinPath (base : List String) (t : String) : List String :=
  if isAbsoluteTarget t then targetComponents t else base ++ targetComponents t

/-- OS resolution of ".." components ("/" is its own parent). -/
def normGo : List String → List String → List String
  | acc, [] => acc.reverse
  | acc, c :: cs =>
    if c == ".." then
      match acc with
      | [] => normGo [] cs
      | _ :: a2 => normGo a2 cs
    else normGo (c :: acc) cs

def normalizePath (p : List String) : List String := normGo [] p

/-- The file-system location actually written for a task target. -/
def resolveTarget (base : List String) (t : String) : List String :=
  normalizePath (joinPath base t)

/-- Rendering of a `pathlib.Path` by `str(...)` (posix, unnormalized). -/
def pathStr (p : List String) : String := "/" ++ String.intercalate ("/") p

/-- Whether a resolved path lies under the project root. -/
def insideRoot (base p : List String) : Bool := base.isPrefixOf p

/-! ## Keyword matching

Python lowercases the description and then checks `keyword in description`.
Strings are compared at the level of code points; `lowerN` is ASCII
lowercasing (the keywords of this repository are all ASCII). -/

/-- Code points of a string. -/
def codes (s : String) : List Nat := s.data.map Char.toNat

/-- ASCII lowercase on a code point, as Python `str.lower` acts on ASCII. -/
def lowerN (n : Nat) : Nat := if 65 ≤ n ∧ n ≤ 90 then n + 32 else n

def listLower (l : List Nat) : List Nat := l.map lowerN

/-- Python substring test `pat in l` over code-point lists. -/
def containsN (l pat : List Nat) : Bool :=
  (List.range (l.length + 1)).any (fun i => pat.isPrefixOf (l.drop i))

theorem lowerN_idem (n : Nat) : lowerN (lowerN n) = lowerN n := by
  simp only [lowerN]
  split_ifs <;> omega

theorem listLower_idem (l : List Nat) : listLower (listLower l) = listLower l := by
  induction l with
  | nil => rfl
  | cons a l ih =>
    simp only [listLower, List.map_cons] at ih ⊢
    rw [lowerN_idem, ih]

/-! ## Task Classifier: `parse_task_type` in `cost_optimizer.py`. -/

def creationKeywords : List String :=
  ["create", "new file", "make", "generate", "build", "add file",
   "setup", "initialize", "scaffold", "bootstrap"]

def modificationKeywords : List String :=
  ["modify", "update", "change", "edit", "fix", "improve",
   "style", "format", "refactor", "optimize"]

def reasoningKeywords : List String :=
  ["analyze", "review", "suggest", "design", "implement algorithm",
   "debug", "troubleshoot", "performance", "architecture",
   "algorithm", "logic", "strategy", "plan"]

/-- `parse_task_type(description)`: ordered keyword dispatch on the
lowercased description; creation before modification before reasoning,
otherwise "unknown". -/
def parseTaskType (s : String) : String :=
  let d := listLower (codes s)
  if creationKeywords.any (fun k => containsN d (codes k)) then "file_creation"
  else if modificationKeywords.any (fun k => containsN d (codes k)) then "file_modification"
  else if reasoningKeywords.any (fun k => containsN d (codes k)) then "ai_reasoning"
  else "unknown"

/-! ## Flat JSON objects

`json.dump(d, f, indent=2)` and `json.load(f)` for the flat string-valued
mappings this subsystem reads and writes. -/

/-- Quote a JSON string (payloads are assumed free of characters needing escapes;
the parser rejects escapes, so quoting is injective on its domain). -/
def jquote (s : String) : String := "\"" ++ s ++ "\""

/-- `json.dump(obj, f, indent=2)` for a flat string-valued mapping. -/
def jsonDumpEntries (kvs : List (String × String)) : String :=
  if kvs.isEmpty then "\x7b\x7d"
  else "\x7b\n" ++ String.intercalate (",\n")
    (kvs.map (fun p => "  " ++ jquote p.1 ++ ": " ++ jquote p.2)) ++ "\n\x7d"

/-- Drop leading JSON whitespace. -/
def skipWs : List Char → List Char
  | [] => []
  | c :: cs => if c = ' ' || c = '\n' || c = '\t' || c = '\r' then skipWs cs else c :: cs

/-- Parse the remainder of a JSON string after the opening quote.
Escape sequences are out of the modelled fragment and rejected. -/
def parseJStr : List Char → Option (String × List Char)
  | [] => none
  | c :: cs =>
    if c = '"' then some ("", cs)
    else if c = '\\' then none
    else (parseJStr cs).map (fun r => (String.mk (c :: r.1.data), r.2))

/-- Parse `"key": "value"` entries separated by ',' up to the closing brace. -/
def parseJEntries : Nat → List Char → Option (List (String × String) × List Char)
  | 0, _ => none
  | fuel + 1, cs =>
    match skipWs cs with
    | '"' :: r1 =>
      match parseJStr r1 with
      | none => none
      | some (k, r2) =>
        match skipWs r2 with
        | ':' :: r4 =>
          match skipWs r4 with
          | '"' :: r6 =>
            match parseJStr r6 with
            | none => none
            | some (v, r7) =>
              match skipWs r7 with
              | ',' :: r9 => (parseJEntries fuel r9).map (fun r => ((k, v) :: r.1, r.2))
              | '\x7d' :: r9 => some ([(k, v)], r9)
              | _ => none
          | _ => none
        | _ => none
    | _ => none

/-- `json.load` restricted to flat string-valued objects; anything else is
reported as unparseable (which ends in the same caught-exception branch). -/
def jsonParseObj (s : String) : Option (List (String × String)) :=
  match skipWs s.data with
  | '\x7b' :: r =>
    match skipWs r with
    | '\x7d' :: r2 => if (skipWs r2).isEmpty then some [] else none
    | _ =>
      match parseJEntries (s.data.length + 1) (skipWs r) with
      | some (kvs, rest) => if (skipWs rest).isEmpty then some kvs else none
      | none => none
  | _ => none

/-- Python `dict.update`: shallow merge, existing keys keep their position,
new keys are appended in update order. -/
def mergeDict (d u : List (String × String)) : List (String × String) :=
  u.foldl (fun acc kv => setA acc kv.1 kv.2) d

/-! ## Data model: task records and results. -/

/-- A task's `content` payload: a string to write, or a flat mapping to merge. -/
inductive TContent
  | cstr (s : String)
  | cmap (entries : List (String × String))
deriving DecidableEq

/-- Outcome dict of one executor invocation (absent keys are `none`). -/
structure ExecResult where
  success : Bool
  action : Option String := none
  target : Option String := none
  bytes_written : Option Nat := none
  modification_type : Option String := none
  error : Option String := none
deriving DecidableEq

/-- A task-metadata dict as stored in `tasks/<id>.json`. -/
structure TaskRec where
  task_id : Option String := none
  type : String := ""
  target : String := ""
  content : TContent := TContent.cstr ("")
  modification : Option String := none
  status : Option String := none
  stored_at : Option String := none
  updated_at : Option String := none
  execution_result : Option ExecResult := none
deriving DecidableEq

/-- Result dict of `store_task`. -/
structure StoreResult where
  success : Bool
  task_id : Option String := none
  stored_file : Option String := none
  error : Option String := none
deriving DecidableEq

/-- Result dict of `store_batch_tasks`. -/
structure BatchStoreResult where
  success : Bool
  tasks_stored : Nat := 0
  task_ids : List String := []
  error : Option String := none
deriving DecidableEq

/-- Result dict of `execute_batch_tasks`. -/
structure BatchExecResult where
  success : Bool
  tasks_executed : Nat := 0
  tasks_failed : Nat := 0
  detailed_results : List ExecResult := []
  error : Option String := none
deriving DecidableEq

/-- Shared mutable world of the store and the executor: the task store
(`tasks/` directory), the project file system, the abstract clock feeding
`datetime.now().isoformat()`, and the fresh counter feeding `uuid.uuid4()`. -/
structure AgentState where
  store : List (String × TaskRec)
  fs : List (List String × String)
  now : Nat
  nextId : Nat
deriving DecidableEq

/-- Abstract `datetime.now().isoformat()` value at clock tick `n`. -/
def timeStamp (n : Nat) : String := "T" ++ toString n

/-- Abstract `str(uuid.uuid4())` value at counter `n`. -/
def freshId (n : Nat) : String := "uuid-" ++ toString n

/-! ## TaskMetadataStore (`cost_efficient_ops_new.py`). -/

/-- `store_task`: assign `task_id` if missing (a fresh uuid is drawn on every call,
as the Python default argument is always evaluated), overwrite `stored_at`, and
write the record to `tasks/<id>.json`. -/
def storeTask (base : List String) (st : AgentState) (rec : TaskRec) : AgentState × StoreResult :=
  let id := rec.task_id.getD (freshId st.nextId)
  let rec2 := { rec with task_id := some id, stored_at := some (timeStamp st.now) }
  ({ st with store := setA st.store id rec2, now := st.now + 1, nextId := st.nextId + 1 },
   { success := true
     task_id := some id
     stored_file := some (pathStr (base ++ ["tasks", id ++ ".json"])) })

/-- `get_task`: read a record back by id (`None` when absent or unreadable). -/
def getTask (st : AgentState) (task_id : String) : Option TaskRec :=
  lookupA st.store task_id

/-- `store_batch_tasks`: store each record independently, collect the ids of
the successes; the aggregate `success` flag does not reflect the items. -/
def storeBatchGo (base : List String) : AgentState → List TaskRec → AgentState × List String
  | st, [] => (st, [])
  | st, t :: rest =>
    let (st2, r) := storeTask base st t
    let (st3, ids) := storeBatchGo base st2 rest
    (st3, if r.success then (r.task_id.getD ("")) :: ids else ids)

def storeBatchTasks (base : List String) (st : AgentState) (tasks : List TaskRec) :
    AgentState × BatchStoreResult :=
  let (st2, ids) := storeBatchGo base st tasks
  (st2, { success := true, tasks_stored := ids.length, task_ids := ids })

/-- `update_task_status`: re-read the record, overwrite `status`, stamp
`updated_at`, merge the extra keyword fields (only `execution_result` is ever
passed in this module), and re-store through `store_task`. -/
def updateTaskStatus (base : List String) (st : AgentState) (task_id status : String)
    (er : Option ExecResult) : AgentState × StoreResult :=
  match lookupA st.store task_id with
  | none => (st, { success := false, error := some ("Task not found") })
  | some t =>
    let t2 := { t with
                status := some status
                updated_at := some (timeStamp st.now)
                execution_result := (match er with
                  | some r => some r
                  | none => t.execution_result) }
    storeTask base { st with now := st.now + 1 } t2

/-! ## Serialized form of a record, and the write trace of `store_task`.

`store_task` opens `tasks/<id>.json` with mode `w` — which truncates the file
immediately — and then streams `json.dump` into it.  `storeTaskSteps` lists the
successive contents of that file as a concurrent reader can observe them:
first the truncated (empty) file, then the completed serialization.  Top-level
fields follow `json.dump(..., indent=2)`; nested values are rendered compactly
(the byte-exact layout of nested objects is not load-bearing). -/

def renderContent : TContent → String
  | TContent.cstr s => jquote s
  | TContent.cmap kvs => jsonDumpEntries kvs

def renderExecResult (r : ExecResult) : String :=
  "\x7b" ++ String.intercalate (", ")
    ((pairsOfExec r).map (fun kv => jquote kv.1 ++ ": " ++ kv.2)) ++ "\x7d"
where
  pairsOfExec (r : ExecResult) : List (String × String) :=
    [("success", if r.success then ("true") else ("false"))] ++
    (match r.action with | none => [] | some a => [("action", jquote a)]) ++
    (match r.target with | none => [] | some a => [("target", jquote a)]) ++
    (match r.bytes_written with | none => [] | some n => [("bytes_written", toString n)]) ++
    (match r.modification_type with | none => [] | some a => [("modification_type", jquote a)]) ++
    (match r.error with | none => [] | some a => [("error", jquote a)])

def taskFieldLines (t : TaskRec) : List String :=
  (match t.task_id with | none => [] | some v => [fieldLine ("task_id") (jquote v)]) ++
  [fieldLine ("type") (jquote t.type), fieldLine ("target") (jquote t.target),
   fieldLine ("content") (renderContent t.content)] ++
  (match t.modification with | none => [] | some v => [fieldLine ("modification") (jquote v)]) ++
  (match t.status with | none => [] | some v => [fieldLine ("status") (jquote v)]) ++
  (match t.stored_at with | none => [] | some v => [fieldLine ("stored_at") (jquote v)]) ++
  (match t.updated_at with | none => [] | some v => [fieldLine ("updated_at") (jquote v)]) ++
  (match t.execution_result with | none => [] | some v => [fieldLine ("execution_result") (renderExecResult v)])
where
  fieldLine (k v : String) : String := "  " ++ jquote k ++ ": " ++ v

def serializeTask (t : TaskRec) : String :=
  "\x7b\n" ++ String.intercalate (",\n") (taskFieldLines t) ++ "\n\x7d"

/-- Successive observable contents of `tasks/<id>.json` during `store_task`:
truncation by `open(..., 'w')`, then the completed `json.dump`. -/
def storeTaskSteps (rec : TaskRec) (nextId now : Nat) : List String :=
  let id := rec.task_id.getD (freshId nextId)
  ["", serializeTask { rec with task_id := some id, stored_at := some (timeStamp now) }]

/-! ## TaskExecutorAgent (`cost_efficient_ops_new.py`).

Execution is instrumented with an event list: `storeStatus` marks a status
persisted through the store, `fsRead`/`fsWrite` mark accesses to the task's
target file (the store's own `tasks/` files are bookkeeping, not targets). -/

inductive ExecEvent
  | storeStatus (task_id : String) (status : String)
  | fsRead (p : List String)
  | fsWrite (p : List String)
deriving DecidableEq

/-- `_execute_file_creation`: `target_path = base_dir / target`, make parents,
open with 'w' (truncates) and write the content.  A non-string payload makes
`f.write` raise TypeError after the truncation; pathlib never rejects or
rewrites the path, wherever it resolves. -/
def executeFileCreation (base : List String) (st : AgentState) (task : TaskRec) :
    AgentState × ExecResult × List ExecEvent :=
  let pSyn := joinPath base task.target
  let p := normalizePath pSyn
  match task.content with
  | TContent.cstr s =>
    ({ st with fs := setA st.fs p s },
     { success := true
       action := some ("file_created")
       target := some (pathStr pSyn)
       bytes_written := some s.length },
     [ExecEvent.fsWrite p])
  | TContent.cmap _ =>
    ({ st with fs := setA st.fs p ("") },
     { success := false
       error := some ("TypeError")
       action := some ("creation_failed") },
     [ExecEvent.fsWrite p])

/-- `_execute_file_modification`: require the target to exist, then dispatch on
`task.get("modification", "replace")`. -/
def executeFileModification (base : List String) (st : AgentState) (task : TaskRec) :
    AgentState × ExecResult × List ExecEvent :=
  let pSyn := joinPath base task.target
  let p := normalizePath pSyn
  match lookupA st.fs p with
  | none =>
    (st,
     { success := false
       error := some ("Target file " ++ pathStr pSyn ++ " does not exist")
       action := some ("modification_failed") },
     [ExecEvent.fsRead p])
  | some original =>
    let m := task.modification.getD ("replace")
    if m = "append" then
      match task.content with
      | TContent.cstr s =>
        ({ st with fs := setA st.fs p (original ++ s) },
         { success := true
           action := some ("file_modified")
           target := some (pathStr pSyn)
           modification_type := some m },
         [ExecEvent.fsRead p, ExecEvent.fsWrite p])
      | TContent.cmap _ =>
        -- f.write raises TypeError; append-mode open left the file intact
        (st,
         { success := false
           error := some ("TypeError")
           action := some ("modification_failed") },
         [ExecEvent.fsRead p])
    else if m = "prepend" then
      match task.content with
      | TContent.cstr s =>
        ({ st with fs := setA st.fs p (s ++ original) },
         { success := true
           action := some ("file_modified")
           target := some (pathStr pSyn)
           modification_type := some m },
         [ExecEvent.fsRead p, ExecEvent.fsRead p, ExecEvent.fsWrite p])
      | TContent.cmap _ =>
        -- open(..., 'w') truncates before the concatenation raises TypeError
        ({ st with fs := setA st.fs p ("") },
         { success := false
           error := some ("TypeError")
           action := some ("modification_failed") },
         [ExecEvent.fsRead p, ExecEvent.fsRead p, ExecEvent.fsWrite p])
    else if m = "update_json" then
      match jsonParseObj original with
      | none =>
        -- json.load raised before any write: the target is untouched
        (st,
         { success := false
           error := some ("JSONDecodeError")
           action := some ("modification_failed") },
         [ExecEvent.fsRead p, ExecEvent.fsRead p])
      | some data =>
        match task.content with
        | TContent.cmap kvs =>
          ({ st with fs := setA st.fs p (jsonDumpEntries (mergeDict data kvs)) },
           { success := true
             action := some ("file_modified")
             target := some (pathStr pSyn)
             modification_type := some m },
           [ExecEvent.fsRead p, ExecEvent.fsRead p, ExecEvent.fsWrite p])
        | TContent.cstr s =>
          if s = "" then
            -- dict.update of an empty sequence is a no-op; the file is rewritten
            ({ st with fs := setA st.fs p (jsonDumpEntries data) },
             { success := true
               action := some ("file_modified")
               target := some (pathStr pSyn)
               modification_type := some m },
             [ExecEvent.fsRead p, ExecEvent.fsRead p, ExecEvent.fsWrite p])
          else
            -- dict.update of a plain string raises ValueError before the write-open
            (st,
             { success := false
               error := some ("ValueError")
               action := some ("modification_failed") },
             [ExecEvent.fsRead p, ExecEvent.fsRead p])
    else
      match task.content with
      | TContent.cstr s =>
        ({ st with fs := setA st.fs p s },
         { success := true
           action := some ("file_modified")
           target := some (pathStr pSyn)
           modification_type := some m },
         [ExecEvent.fsRead p, ExecEvent.fsWrite p])
      | TContent.cmap _ =>
        ({ st with fs := setA st.fs p ("") },
         { success := false
           error := some ("TypeError")
           action := some ("modification_failed") },
         [ExecEvent.fsRead p, ExecEvent.fsWrite p])

/-- `execute_task`: load the record, persist status "executing", dispatch on
the record's `type`, then persist "completed" or "failed" with the attached
result.  The rollback hook only logs; with `enable_rollback` the failed
result's action is overwritten with "rollback_completed". -/
def executeTask (base : List String) (st : AgentState) (task_id : String)
    (enable_rollback : Bool) : AgentState × ExecResult × List ExecEvent :=
  match lookupA st.store task_id with
  | none =>
    (st, { success := false, error := some ("Task " ++ task_id ++ " not found") }, [])
  | some task =>
    let st1 := (updateTaskStatus base st task_id ("executing") none).1
    let step :=
      if task.type = "file_creation" then executeFileCreation base st1 task
      else if task.type = "file_modification" then executeFileModification base st1 task
      else (st1,
            { success := false, error := some ("Unknown task type: " ++ task.type) },
            ([] : List ExecEvent))
    let st2 := step.1
    let result := step.2.1
    let evs := step.2.2
    if result.success then
      let st3 := (updateTaskStatus base st2 task_id ("completed") (some result)).1
      (st3, result, ExecEvent.storeStatus task_id ("executing") :: evs ++
        [ExecEvent.storeStatus task_id ("completed")])
    else
      let st3 := (updateTaskStatus base st2 task_id ("failed") (some result)).1
      let result2 := if enable_rollback then { result with action := some ("rollback_completed") }
                     else result
      (st3, result2, ExecEvent.storeStatus task_id ("executing") :: evs ++
        [ExecEvent.storeStatus task_id ("failed")])

/-- `execute_batch_tasks`: run the ids strictly in order, collect per-item
results and success/failure counts; the aggregate flag is always `true`. -/
def execBatchGo (base : List String) : AgentState → List String → AgentState × List ExecResult
  | st, [] => (st, [])
  | st, id :: rest =>
    let (st2, r, _) := executeTask base st id false
    let (st3, rs) := execBatchGo base st2 rest
    (st3, r :: rs)

def executeBatchTasks (base : List String) (st : AgentState) (ids : List String) :
    AgentState × BatchExecResult :=
  let (st2, results) := execBatchGo base st ids
  (st2,
   { success := true
     tasks_executed := results.countP (fun r => r.success)
     tasks_failed := results.countP (fun r => !r.success)
     detailed_results := results })

/-! ## TaskMemory (`cost_efficient_ops_new.py`): session history and rollback.

The class keeps no in-memory history: every operation re-reads
`memory/session_<id>.json`, so the persisted array is the only history.
A history entry is modelled by its `session_id` and `task_id` keys plus an
opaque snapshot of the remaining fields. -/

structure HistRec where
  session_id : String
  task_id : String
  snapshot : String := ""
deriving DecidableEq

/-- First index whose entry matches, as the `for i, record in enumerate(...)`
loop with `break` computes it. -/
def findIdxA (p : HistRec → Bool) : List HistRec → Option Nat
  | [] => none
  | r :: rest => if p r then some 0 else (findIdxA p rest).map (fun i => i + 1)

/-- `get_session_history`: the persisted array, `[]` when the file is absent. -/
def getSessionHistory (mem : List (String × List HistRec)) (session_id : String) :
    List HistRec :=
  (lookupA mem session_id).getD []

/-- `store_execution`: read-modify-append on the session file. -/
def storeExecution (mem : List (String × List HistRec)) (entry : HistRec) :
    List (String × List HistRec) :=
  setA mem entry.session_id (getSessionHistory mem entry.session_id ++ [entry])

structure RollbackResult where
  success : Bool
  rolled_back_to : Option String := none
  states_removed : Option Nat := none
  error : Option String := none
deriving DecidableEq

/-- `rollback_to_state`: truncate the history to the first entry whose
`task_id` matches (inclusive) and persist it; report how many entries were
discarded.  Without a match, fail and leave the file untouched. -/
def rollbackToState (mem : List (String × List HistRec)) (session_id target_task_id : String) :
    List (String × List HistRec) × RollbackResult :=
  let history := getSessionHistory mem session_id
  match findIdxA (fun r => r.task_id = target_task_id) history with
  | none => (mem, { success := false, error := some ("Target state not found") })
  | some i =>
    let truncated := history.take (i + 1)
    (setA mem session_id truncated,
     { success := true
       rolled_back_to := some target_task_id
       states_removed := some (history.length - truncated.length) })

/-! ## CostTracker (`cost_optimizer.py`). -/

structure OpRec where
  type : String
  used_ai : Bool
  tokens_used : Nat := 0
  tokens_saved : Nat := 0
deriving DecidableEq

structure CostTracker where
  operations : List OpRec := []
  total_tokens_used : Nat := 0
  total_tokens_saved : Nat := 0
deriving DecidableEq

/-- `record_operation`: append the operation and accumulate either the used
or the saved tokens, depending on `used_ai`. -/
def recordOperation (t : CostTracker) (op : OpRec) : CostTracker :=
  { operations := t.operations ++ [op]
    total_tokens_used := if op.used_ai then t.total_tokens_used + op.tokens_used
                         else t.total_tokens_used
    total_tokens_saved := if op.used_ai then t.total_tokens_saved
                          else t.total_tokens_saved + op.tokens_saved }

structure CostStatistics where
  total_operations : Nat
  ai_operations : Nat
  non_ai_operations : Nat
  tokens_saved : Nat
  tokens_used : Nat
  cost_savings_percentage : ℚ
deriving DecidableEq

/-- Python `round(x, 2)` on the exact rational value (the float rounding mode
is immaterial at the values stated about concrete inputs below). -/
def round2 (q : ℚ) : ℚ := ((round (q * 100) : ℤ) : ℚ) / 100

/-- `get_statistics`: operation counts, token totals, and a savings percentage
derived from the token totals — saved / (used + saved) × 100, `0` when no
tokens were recorded. -/
def getStatistics (t : CostTracker) : CostStatistics :=
  let total_ops := t.operations.length
  let ai_ops := t.operations.countP (fun op => op.used_ai)
  let total_potential := t.total_tokens_used + t.total_tokens_saved
  { total_operations := total_ops
    ai_operations := ai_ops
    non_ai_operations := total_ops - ai_ops
    tokens_saved := t.total_tokens_saved
    tokens_used := t.total_tokens_used
    cost_savings_percentage :=
      if 0 < total_potential
      then round2 ((t.total_tokens_saved : ℚ) / (total_potential : ℚ) * 100)
      else 0 }

/-! ## StructuredTaskProcessor (`cost_efficient_ops_new.py`). -/

/-- A structured plan as `process_user_request` consumes it: the dict either
carries `tasks` (when `task_type` is "multi_file_creation") or the
single-file fields. -/
structure PlanOut where
  task_type : String
  target_file : String := ""
  content : String := ""
  tasks : List (String × String) := []

/-- Outcome of `LLMPlannerAgent.create_execution_plan` (the external content
generator is opaque: only its structured result matters here). -/
structure PlanResult where
  success : Bool
  plan : Option PlanOut := none
  error : Option String := none

structure ProcStats where
  total_requests : Nat := 0
  llm_requests : Nat := 0
  rule_based_requests : Nat := 0
deriving DecidableEq

structure ProcState where
  agent : AgentState
  planner : Option (String → PlanResult)
  stats : ProcStats

/-- Result dict of `process_user_request` / `_process_rule_based`. -/
structure ProcResult where
  success : Bool
  error : Option String := none
  llm_used : Option Bool := none
  llm_used_for_execution : Option Bool := none
  rule_based : Option Bool := none
  files_created : Option Nat := none
  exec_single : Option ExecResult := none
  exec_batch : Option BatchExecResult := none
deriving DecidableEq

def creativeKeywords : List String :=
  ["creative", "story", "narrative", "unique", "design",
   "algorithm", "complex", "generate", "innovative"]

def simpleKeywords : List String :=
  ["create file", "make file", "add file", "simple",
   "basic", "standard", "update", "modify"]

/-- `should_use_llm`: creative keywords first (LLM), then simple keywords
(no LLM), defaulting to LLM for uncertain requests. -/
def shouldUseLlm (request : String) : Bool :=
  let d := listLower (codes request)
  if creativeKeywords.any (fun k => containsN d (codes k)) then true
  else if simpleKeywords.any (fun k => containsN d (codes k)) then false
  else true

/-- The canned HTML document of `_process_rule_based`, verbatim. -/
def ruleHtmlContent : String :=
  "<!DOCTYPE html>\n<html lang=\"en\">\n<head>\n    <meta charset=\"UTF-8\">\n    <meta name=\"viewport\" content=\"width=device-width, initial-scale=1.0\">\n    <title>Document</title>\n</head>\n<body>\n    <h1>Hello World</h1>\n</body>\n</html>"

/-- `_process_rule_based`: when the lowercased request contains "create" and
"html", store and execute the canned `index.html` creation task; otherwise
(or if the store failed) return the descriptive no-rule failure. -/
def processRuleBased (base : List String) (st : AgentState) (request : String) :
    AgentState × Option ProcResult :=
  let d := listLower (codes request)
  if containsN d (codes ("create")) && containsN d (codes ("html")) then
    let task : TaskRec :=
      { type := "file_creation"
        target := "index.html"
        content := TContent.cstr ruleHtmlContent
        status := some ("pending") }
    let (st1, sres) := storeTask base st task
    if sres.success then
      let step := executeTask base st1 (sres.task_id.getD ("")) false
      (step.1,
       some { success := true
              llm_used := some false
              rule_based := some true
              exec_single := some step.2.1 })
    else
      (st1, some { success := false
                   error := some ("No rule matched, LLM needed but not available") })
  else
    (st, some { success := false
                error := some ("No rule matched, LLM needed but not available") })

/-- The LLM-planned branch of `process_user_request`, after a successful
plan was obtained.  When an inner store fails, the Python function falls off
its end and returns `None` (modelled by `none`). -/
def procLlmPlanned (base : List String) (st : AgentState) (plan : PlanOut) :
    AgentState × Option ProcResult :=
  if plan.task_type = "multi_file_creation" then
    let tasks := plan.tasks.map (fun td =>
      ({ type := "file_creation"
         target := td.1
         content := TContent.cstr td.2
         status := some ("pending") } : TaskRec))
    let (st1, bres) := storeBatchTasks base st tasks
    if bres.success then
      let (st2, eres) := executeBatchTasks base st1 bres.task_ids
      (st2,
       some { success := true
              llm_used := some true
              llm_used_for_execution := some false
              files_created := some bres.task_ids.length
              exec_batch := some eres })
    else (st1, none)
  else
    let task : TaskRec :=
      { type := plan.task_type
        target := plan.target_file
        content := TContent.cstr plan.content
        status := some ("pending") }
    let (st1, sres) := storeTask base st task
    if sres.success then
      let step := executeTask base st1 (sres.task_id.getD ("")) false
      (step.1,
       some { success := true
              llm_used := some true
              llm_used_for_execution := some false
              exec_single := some step.2.1 })
    else (st1, none)

/-- `process_user_request`: count the request, ask `should_use_llm`; the LLM
branch runs only when a planner is configured — otherwise control falls to
the rule-based branch (which also counts the request as rule-based).  The
third component counts invocations of the external planner. -/
def processUserRequest (base : List String) (ps : ProcState) (request : String) :
    ProcState × Option ProcResult × Nat :=
  let ps1 := { ps with stats := { ps.stats with total_requests := ps.stats.total_requests + 1 } }
  match ps1.planner, shouldUseLlm request with
  | some gen, true =>
    let pr := gen request
    let ps2 := { ps1 with stats := { ps1.stats with llm_requests := ps1.stats.llm_requests + 1 } }
    if pr.success then
      match pr.plan with
      | some plan =>
        let (st2, res) := procLlmPlanned base ps2.agent plan
        ({ ps2 with agent := st2 }, res, 1)
      | none =>
        -- a success dict without a "plan" key would raise KeyError into the outer except
        (ps2, some { success := false, error := some ("KeyError") }, 1)
    else
      (ps2, some { success := false, error := pr.error }, 1)
  | _, _ =>
    let ps2 := { ps1 with stats :=
      { ps1.stats with rule_based_requests := ps1.stats.rule_based_requests + 1 } }
    let (st2, res) := processRuleBased base ps2.agent request
    ({ ps2 with agent := st2 }, res, 0)

structure OptSummary where
  total_requests : Nat
  llm_requests : Nat
  rule_based_requests : Nat
  cost_savings_percentage : ℚ
  ai_usage_percentage : Option ℚ
deriving DecidableEq

/-- `get_optimization_summary`: all-zero summary when nothing was processed
(that early return carries no ai-usage key), otherwise the request counters
with percentages derived from them. -/
def getOptimizationSummary (s : ProcStats) : OptSummary :=
  if s.total_requests = 0 then
    { total_requests := 0
      llm_requests := 0
      rule_based_requests := 0
      cost_savings_percentage := 0
      ai_usage_percentage := none }
  else
    { total_requests := s.total_requests
      llm_requests := s.llm_requests
      rule_based_requests := s.rule_based_requests
      cost_savings_percentage := (s.rule_based_requests : ℚ) / (s.total_requests : ℚ) * 100
      ai_usage_percentage := some ((s.llm_requests : ℚ) / (s.total_requests : ℚ) * 100) }
/-! ## General facts about the executor, shared by several theorems below. -/

theorem storeTask_fs (base : List String) (st : AgentState) (rec : TaskRec) :
    (storeTask base st rec).1.fs = st.fs := rfl

theorem updateTaskStatus_fs (base : List String) (st : AgentState) (id status : String)
    (er : Option ExecResult) : (updateTaskStatus base st id status er).1.fs = st.fs := by
  unfold updateTaskStatus
  cases lookupA st.store id <;> rfl

/-- Full characterization of `execute_task` on a stored creation task with a
string payload: the result dict, the file-system effect, and the event trace. -/
theorem executeTask_creation_cstr (base : List String) (st : AgentState) (id : String)
    (task : TaskRec) (s : String)
    (h1 : lookupA st.store id = some task)
    (h2 : task.type = "file_creation")
    (h3 : task.content = TContent.cstr s) :
    (executeTask base st id false).2.1 =
      { success := true
        action := some ("file_created")
        target := some (pathStr (joinPath base task.target))
        bytes_written := some s.length } ∧
    (executeTask base st id false).1.fs = setA st.fs (resolveTarget base task.target) s ∧
    (executeTask base st id false).2.2 =
      [ExecEvent.storeStatus id ("executing"),
       ExecEvent.fsWrite (resolveTarget base task.target),
       ExecEvent.storeStatus id ("completed")] := by
  refine ⟨?_, ?_, ?_⟩
  · simp [executeTask, h1, h2, h3, executeFileCreation]
  · simp [executeTask, h1, h2, h3, executeFileCreation, resolveTarget, updateTaskStatus_fs]
  · simp [executeTask, h1, h2, h3, executeFileCreation, resolveTarget]

/-- Full characterization of `execute_task` on a stored modification task whose
target file does not exist. -/
theorem executeTask_modification_missing (base : List String) (st : AgentState) (id : String)
    (task : TaskRec)
    (h1 : lookupA st.store id = some task)
    (h2 : task.type = "file_modification")
    (h3 : lookupA st.fs (resolveTarget base task.target) = none) :
    (executeTask base st id false).2.1 =
      { success := false
        error := some ("Target file " ++ pathStr (joinPath base task.target) ++ " does not exist")
        action := some ("modification_failed") } ∧
    (executeTask base st id false).1.fs = st.fs ∧
    (executeTask base st id false).2.2 =
      [ExecEvent.storeStatus id ("executing"),
       ExecEvent.fsRead (resolveTarget base task.target),
       ExecEvent.storeStatus id ("failed")] := by
  simp only [resolveTarget] at h3
  refine ⟨?_, ?_, ?_⟩ <;>
    simp [executeTask, h1, h2, h3, executeFileModification, resolveTarget, updateTaskStatus_fs]

/-! ## C1: path containment. -/

def c1Task : TaskRec :=
  { task_id := some ("t1")
    type := "file_creation"
    target := "../evil.txt"
    content := TContent.cstr ("boom")
    status := some ("pending") }

def c1State : AgentState := { store := [("t1", c1Task)], fs := [], now := 0, nextId := 0 }

/-- C1 (counterexample): for the stored creation task with target
"../evil.txt" under root /root/proj, `execute_task` does not reject the task —
it succeeds with no error and the write lands at /root/evil.txt, outside the
root.  This falsifies the claim that escaping targets are rejected with a
PathEscape failure and that no write outside the root occurs. -/
theorem c1_counterexample :
    (executeTask ["root", "proj"] c1State ("t1") false).2.1.success = true ∧
    (executeTask ["root", "proj"] c1State ("t1") false).2.1.error = none ∧
    lookupA (executeTask ["root", "proj"] c1State ("t1") false).1.fs ["root", "evil.txt"] =
      some ("boom") ∧
    insideRoot ["root", "proj"] ["root", "evil.txt"] = false := by decide

/-- C1 (amended): the executor performs no path-containment check at all.  For
every stored `file_creation` task whose target resolves outside the project
root, `execute_task` executes it anyway: it reports success `file_created`
with no error of any kind, and the content is written exactly at the resolved
(escaped) location — the path is neither rejected nor rewritten nor clamped. -/
theorem c1_no_escape_check (base : List String) (st : AgentState) (id : String)
    (task : TaskRec) (s : String)
    (h1 : lookupA st.store id = some task)
    (h2 : task.type = "file_creation")
    (h3 : task.content = TContent.cstr s)
    (_hesc : insideRoot base (resolveTarget base task.target) = false) :
    (executeTask base st id false).2.1.success = true ∧
    (executeTask base st id false).2.1.action = some ("file_created") ∧
    (executeTask base st id false).2.1.error = none ∧
    lookupA (executeTask base st id false).1.fs (resolveTarget base task.target) = some s := by
  obtain ⟨hres, hfs, -⟩ := executeTask_creation_cstr base st id task s h1 h2 h3
  refine ⟨?_, ?_, ?_, ?_⟩
  · rw [hres]
  · rw [hres]
  · rw [hres]
  · rw [hfs]
    exact lookupA_setA_self ..

/-- C1 (witness): the amended theorem applied to the concrete escaping task of
the counterexample. -/
theorem c1_witness :
    (lookupA c1State.store ("t1") = some c1Task ∧
     c1Task.type = "file_creation" ∧
     c1Task.content = TContent.cstr ("boom") ∧
     insideRoot ["root", "proj"] (resolveTarget ["root", "proj"] c1Task.target) = false) ∧
    ((executeTask ["root", "proj"] c1State ("t1") false).2.1.success = true ∧
     (executeTask ["root", "proj"] c1State ("t1") false).2.1.action = some ("file_created") ∧
     (executeTask ["root", "proj"] c1State ("t1") false).2.1.error = none ∧
     lookupA (executeTask ["root", "proj"] c1State ("t1") false).1.fs
       (resolveTarget ["root", "proj"] c1Task.target) = some ("boom")) :=
  ⟨⟨by decide, by decide, by decide, by decide⟩,
   c1_no_escape_check ["root", "proj"] c1State ("t1") c1Task ("boom")
     (by decide) (by decide) (by decide) (by decide)⟩

/-! ## C9: creation result and the `bytes_written` field. -/

def c9Task : TaskRec :=
  { task_id := some ("t9")
    type := "file_creation"
    target := "e.txt"
    content := TContent.cstr ("é")
    status := some ("pending") }

def c9State : AgentState := { store := [("t9", c9Task)], fs := [], now := 0, nextId := 0 }

/-- C9 (counterexample): a successfully executed creation task whose content is
the single character "é" reports `bytes_written = 1` — `len(content)` counts
characters — while the content actually written to the target file occupies 2
bytes (its UTF-8 encoding, the platform default for text-mode writes).  So
`bytes_written` is not the number of bytes actually written. -/
theorem c9_counterexample :
    (executeTask ["proj"] c9State ("t9") false).2.1.success = true ∧
    (executeTask ["proj"] c9State ("t9") false).2.1.bytes_written = some 1 ∧
    lookupA (executeTask ["proj"] c9State ("t9") false).1.fs
      (resolveTarget ["proj"] ("e.txt")) = some ("é") ∧
    ("é" : String).utf8ByteSize = 2 ∧
    (executeTask ["proj"] c9State ("t9") false).2.1.bytes_written ≠
      some (("é" : String).utf8ByteSize) := by decide

/-- C9 (amended): for every stored `file_creation` task with string content
that executes successfully, the result has `success = true`,
`action = file_created`, and `bytes_written` equal to the length of the
content in characters (code points) — the value written as the file's new
content; the character count coincides with the on-disk byte count only for
single-byte (ASCII) content. -/
theorem c9_creation_result (base : List String) (st : AgentState) (id : String)
    (task : TaskRec) (s : String)
    (h1 : lookupA st.store id = some task)
    (h2 : task.type = "file_creation")
    (h3 : task.content = TContent.cstr s) :
    (executeTask base st id false).2.1.success = true ∧
    (executeTask base st id false).2.1.action = some ("file_created") ∧
    (executeTask base st id false).2.1.bytes_written = some s.length ∧
    lookupA (executeTask base st id false).1.fs (resolveTarget base task.target) = some s := by
  obtain ⟨hres, hfs, -⟩ := executeTask_creation_cstr base st id task s h1 h2 h3
  refine ⟨?_, ?_, ?_, ?_⟩
  · rw [hres]
  · rw [hres]
  · rw [hres]
  · rw [hfs]
    exact lookupA_setA_self ..

/-- C9 (witness): the amended theorem applied to a concrete creation task. -/
theorem c9_witness :
    (lookupA c9State.store ("t9") = some c9Task ∧
     c9Task.type = "file_creation" ∧
     c9Task.content = TContent.cstr ("é")) ∧
    ((executeTask ["proj"] c9State ("t9") false).2.1.success = true ∧
     (executeTask ["proj"] c9State ("t9") false).2.1.action = some ("file_created") ∧
     (executeTask ["proj"] c9State ("t9") false).2.1.bytes_written = some ("é" : String).length ∧
     lookupA (executeTask ["proj"] c9State ("t9") false).1.fs
       (resolveTarget ["proj"] c9Task.target) = some ("é")) :=
  ⟨⟨by decide, by decide, by decide⟩,
   c9_creation_result ["proj"] c9State ("t9") c9Task ("é")
     (by decide) (by decide) (by decide)⟩

/-! ## C3: status transition sequences observed through the store. -/

def c3CreateTask : TaskRec :=
  { task_id := some ("c3c")
    type := "file_creation"
    target := "index.html"
    content := TContent.cstr ("hello")
    status := some ("pending") }

def c3ModTask : TaskRec :=
  { task_id := some ("c3m")
    type := "file_modification"
    target := "missing.txt"
    content := TContent.cstr ("patch")
    status := some ("pending") }

def c3State : AgentState :=
  { store := [("c3c", c3CreateTask), ("c3m", c3ModTask)], fs := [], now := 0, nextId := 0 }

/-- C3 (confirmed): for a stored-as-pending creation task with string content,
`execute_task` emits exactly the event trace
  status "executing" persisted → target write → status "completed" persisted,
so together with the stored "pending" status the persisted sequence is exactly
pending → executing → completed and the transition to "executing" is persisted
before any access to the target file; for a stored-as-pending modification
task whose target does not exist, the trace is
  status "executing" persisted → target existence check → status "failed" persisted,
giving exactly pending → executing → failed. -/
theorem c3_status_monotonicity (base : List String) (st : AgentState)
    (cid mid : String) (ct mt : TaskRec) (s : String)
    (hc1 : lookupA st.store cid = some ct) (_hc2 : ct.status = some ("pending"))
    (hc3 : ct.type = "file_creation") (hc4 : ct.content = TContent.cstr s)
    (hm1 : lookupA st.store mid = some mt) (_hm2 : mt.status = some ("pending"))
    (hm3 : mt.type = "file_modification")
    (hm4 : lookupA st.fs (resolveTarget base mt.target) = none) :
    ((executeTask base st cid false).2.2 =
       [ExecEvent.storeStatus cid ("executing"),
        ExecEvent.fsWrite (resolveTarget base ct.target),
        ExecEvent.storeStatus cid ("completed")] ∧
     (executeTask base st cid false).2.1.success = true) ∧
    ((executeTask base st mid false).2.2 =
       [ExecEvent.storeStatus mid ("executing"),
        ExecEvent.fsRead (resolveTarget base mt.target),
        ExecEvent.storeStatus mid ("failed")] ∧
     (executeTask base st mid false).2.1.success = false) := by
  obtain ⟨hcres, -, hcev⟩ := executeTask_creation_cstr base st cid ct s hc1 hc3 hc4
  obtain ⟨hmres, -, hmev⟩ := executeTask_modification_missing base st mid mt hm1 hm3 hm4
  refine ⟨⟨hcev, ?_⟩, ⟨hmev, ?_⟩⟩
  · rw [hcres]
  · rw [hmres]

/-- C3 (witness): the theorem applied to one concrete pending creation task and
one concrete pending modification task with a missing target. -/
theorem c3_witness :
    (lookupA c3State.store ("c3c") = some c3CreateTask ∧
     c3CreateTask.status = some ("pending") ∧
     lookupA c3State.store ("c3m") = some c3ModTask ∧
     c3ModTask.status = some ("pending") ∧
     lookupA c3State.fs (resolveTarget ["proj"] c3ModTask.target) = none) ∧
    (((executeTask ["proj"] c3State ("c3c") false).2.2 =
       [ExecEvent.storeStatus ("c3c") ("executing"),
        ExecEvent.fsWrite (resolveTarget ["proj"] c3CreateTask.target),
        ExecEvent.storeStatus ("c3c") ("completed")] ∧
      (executeTask ["proj"] c3State ("c3c") false).2.1.success = true) ∧
     ((executeTask ["proj"] c3State ("c3m") false).2.2 =
       [ExecEvent.storeStatus ("c3m") ("executing"),
        ExecEvent.fsRead (resolveTarget ["proj"] c3ModTask.target),
        ExecEvent.storeStatus ("c3m") ("failed")] ∧
      (executeTask ["proj"] c3State ("c3m") false).2.1.success = false)) :=
  ⟨⟨by decide, by decide, by decide, by decide, by decide⟩,
   c3_status_monotonicity ["proj"] c3State ("c3c") ("c3m") c3CreateTask c3ModTask ("hello")
     (by decide) (by decide) (by decide) (by decide)
     (by decide) (by decide) (by decide) (by decide)⟩

/-! ## C4: structured merge (`modification = "update_json"`, the spec's
`merge_structured` mode). -/

/-- C4 (confirmed): for every stored `file_modification` task in structured-merge
mode whose target file exists and whose content is a mapping: if the target
parses as a structured mapping, execution shallow-merges the task's content
into it (`dict.update` semantics) and writes the merged mapping back to the
target, reporting success `file_modified`; if the target is not valid
structured data, execution returns a failure result carrying the parse error
(the spec's `ParseError`) and the file system — in particular the target
file — is left completely unchanged. -/
theorem c4_merge_structured (base : List String) (st : AgentState) (id : String)
    (task : TaskRec) (orig : String) (kvs : List (String × String))
    (h1 : lookupA st.store id = some task)
    (h2 : task.type = "file_modification")
    (h3 : task.modification = some ("update_json"))
    (h4 : lookupA st.fs (resolveTarget base task.target) = some orig)
    (h5 : task.content = TContent.cmap kvs) :
    (∀ data, jsonParseObj orig = some data →
       (executeTask base st id false).2.1.success = true ∧
       (executeTask base st id false).2.1.action = some ("file_modified") ∧
       lookupA (executeTask base st id false).1.fs (resolveTarget base task.target) =
         some (jsonDumpEntries (mergeDict data kvs))) ∧
    (jsonParseObj orig = none →
       (executeTask base st id false).2.1.success = false ∧
       (executeTask base st id false).2.1.error = some ("JSONDecodeError") ∧
       (executeTask base st id false).1.fs = st.fs) := by
  simp only [resolveTarget] at h4
  constructor
  · intro data hp
    refine ⟨?_, ?_, ?_⟩ <;>
      simp [executeTask, h1, h2, h3, h5, executeFileModification, resolveTarget,
        updateTaskStatus_fs, h4, hp, lookupA_setA_self]
  · intro hp
    refine ⟨?_, ?_, ?_⟩ <;>
      simp [executeTask, h1, h2, h3, h5, executeFileModification, resolveTarget,
        updateTaskStatus_fs, h4, hp]

def c4Task : TaskRec :=
  { task_id := some ("t4")
    type := "file_modification"
    target := "cfg.json"
    content := TContent.cmap [("a", "2"), ("b", "x")]
    modification := some ("update_json")
    status := some ("pending") }

def c4State : AgentState :=
  { store := [("t4", c4Task)]
    fs := [(["proj", "cfg.json"], jsonDumpEntries [("a", "1")])]
    now := 0
    nextId := 0 }

def c4BadState : AgentState :=
  { store := [("t4", c4Task)]
    fs := [(["proj", "cfg.json"], "not json")]
    now := 0
    nextId := 0 }

/-- C4 (witness): the theorem applied to a concrete parseable target (the
merge is performed and written back) and to a concrete unparseable target
(failure, file system unchanged). -/
theorem c4_witness :
    (jsonParseObj (jsonDumpEntries [("a", "1")]) = some [("a", "1")] ∧
     (executeTask ["proj"] c4State ("t4") false).2.1.success = true ∧
     (executeTask ["proj"] c4State ("t4") false).2.1.action = some ("file_modified") ∧
     lookupA (executeTask ["proj"] c4State ("t4") false).1.fs
       (resolveTarget ["proj"] c4Task.target) =
       some (jsonDumpEntries (mergeDict [("a", "1")] [("a", "2"), ("b", "x")]))) ∧
    (jsonParseObj ("not json") = none ∧
     (executeTask ["proj"] c4BadState ("t4") false).2.1.success = false ∧
     (executeTask ["proj"] c4BadState ("t4") false).2.1.error = some ("JSONDecodeError") ∧
     (executeTask ["proj"] c4BadState ("t4") false).1.fs = c4BadState.fs) := by
  have hs := (c4_merge_structured ["proj"] c4State ("t4") c4Task
      (jsonDumpEntries [("a", "1")]) [("a", "2"), ("b", "x")]
      (by decide) (by decide) (by decide) (by decide) (by decide)).1
      [("a", "1")] (by decide)
  have hf := (c4_merge_structured ["proj"] c4BadState ("t4") c4Task
      ("not json") [("a", "2"), ("b", "x")]
      (by decide) (by decide) (by decide) (by decide) (by decide)).2
      (by decide)
  exact ⟨⟨by decide, hs.1, hs.2.1, hs.2.2⟩, ⟨by decide, hf.1, hf.2.1, hf.2.2⟩⟩

/-! ## C6: the classifier. -/

/-- C6 (confirmed): `parse_task_type` is a total pure function (a Lean `def`
never throws and has no side effects), it is case-insensitive — a description
and its lowercased form (`hlow`) classify identically — and it obeys the fixed
precedence: any description containing a creation keyword yields
`file_creation` (even if modification or reasoning keywords also occur);
otherwise a modification keyword yields `file_modification`; otherwise a
reasoning keyword yields `ai_reasoning`; otherwise the result is `unknown`. -/
theorem c6_classifier (s t : String)
    (hlow : codes t = listLower (codes s)) :
    parseTaskType t = parseTaskType s ∧
    (creationKeywords.any (fun k => containsN (listLower (codes s)) (codes k)) = true →
       parseTaskType s = "file_creation") ∧
    (creationKeywords.any (fun k => containsN (listLower (codes s)) (codes k)) = false →
     modificationKeywords.any (fun k => containsN (listLower (codes s)) (codes k)) = true →
       parseTaskType s = "file_modification") ∧
    (creationKeywords.any (fun k => containsN (listLower (codes s)) (codes k)) = false →
     modificationKeywords.any (fun k => containsN (listLower (codes s)) (codes k)) = false →
     reasoningKeywords.any (fun k => containsN (listLower (codes s)) (codes k)) = true →
       parseTaskType s = "ai_reasoning") ∧
    (creationKeywords.any (fun k => containsN (listLower (codes s)) (codes k)) = false →
     modificationKeywords.any (fun k => containsN (listLower (codes s)) (codes k)) = false →
     reasoningKeywords.any (fun k => containsN (listLower (codes s)) (codes k)) = false →
       parseTaskType s = "unknown") := by
  refine ⟨?_, ?_, ?_, ?_, ?_⟩
  · simp only [parseTaskType, hlow, listLower_idem]
  · intro h1
    simp [parseTaskType, h1]
  · intro h1 h2
    simp [parseTaskType, h1, h2]
  · intro h1 h2 h3
    simp [parseTaskType, h1, h2, h3]
  · intro h1 h2 h3
    simp [parseTaskType, h1, h2, h3]

/-- C6 (witness): "Create and Fix the PLAN" contains a creation keyword along
with a modification keyword ("fix") and a reasoning keyword ("plan"); it
classifies as `file_creation`, identically to its lowercased form. -/
theorem c6_witness :
    (codes ("create and fix the plan") = listLower (codes ("Create and Fix the PLAN")) ∧
     creationKeywords.any
       (fun k => containsN (listLower (codes ("Create and Fix the PLAN"))) (codes k)) = true) ∧
    (parseTaskType ("create and fix the plan") = parseTaskType ("Create and Fix the PLAN") ∧
     parseTaskType ("Create and Fix the PLAN") = "file_creation") := by
  have h := c6_classifier ("Create and Fix the PLAN") ("create and fix the plan") (by decide)
  exact ⟨⟨by decide, by decide⟩, ⟨h.1, h.2.1 (by decide)⟩⟩

/-! ## C7: rollback truncation. -/

theorem findIdxA_lt_length (p : HistRec → Bool) (l : List HistRec) :
    ∀ i, findIdxA p l = some i → i < l.length := by
  induction l with
  | nil =>
    intro i h
    simp [findIdxA] at h
  | cons r rest ih =>
    intro i h
    simp only [findIdxA] at h
    by_cases hp : p r
    · rw [if_pos hp] at h
      cases h
      simp
    · rw [if_neg hp] at h
      cases hfind : findIdxA p rest with
      | none => rw [hfind] at h; cases h
      | some j =>
        rw [hfind] at h
        have hji : j + 1 = i := by simpa using h
        have := ih j hfind
        simp only [List.length_cons]
        omega

/-- C7 (confirmed): when the first history entry of a session with the target
`task_id` sits at index `k` in the persisted N-entry history, `rollback_to_state`
persists exactly the first `k + 1` entries and reports `N - (k + 1)` discarded
states (the class keeps no separate in-memory copy: the persisted array is the
history); when no entry matches, it fails with the target-not-found error and
the memory is not mutated. -/
theorem c7_rollback (mem : List (String × List HistRec)) (sid tid : String) (k : Nat)
    (hfind : findIdxA (fun r => r.task_id = tid) (getSessionHistory mem sid) = some k) :
    ((getSessionHistory (rollbackToState mem sid tid).1 sid =
        (getSessionHistory mem sid).take (k + 1)) ∧
     (getSessionHistory (rollbackToState mem sid tid).1 sid).length = k + 1 ∧
     (rollbackToState mem sid tid).2.states_removed =
       some ((getSessionHistory mem sid).length - (k + 1)) ∧
     (rollbackToState mem sid tid).2.success = true) ∧
    (∀ (mem2 : List (String × List HistRec)) (sid2 tid2 : String),
       findIdxA (fun r => r.task_id = tid2) (getSessionHistory mem2 sid2) = none →
       rollbackToState mem2 sid2 tid2 =
         (mem2, { success := false, error := some ("Target state not found") })) := by
  have hk : k < (getSessionHistory mem sid).length :=
    findIdxA_lt_length _ _ k hfind
  have hlen : ((getSessionHistory mem sid).take (k + 1)).length = k + 1 := by
    rw [List.length_take]
    omega
  have hpair : rollbackToState mem sid tid =
      (setA mem sid ((getSessionHistory mem sid).take (k + 1)),
       { success := true
         rolled_back_to := some tid
         states_removed := some ((getSessionHistory mem sid).length -
           ((getSessionHistory mem sid).take (k + 1)).length) }) := by
    simp only [rollbackToState]
    rw [hfind]
  have htr : getSessionHistory (rollbackToState mem sid tid).1 sid =
      (getSessionHistory mem sid).take (k + 1) := by
    rw [hpair]
    simp [getSessionHistory, lookupA_setA_self]
  refine ⟨⟨htr, ?_, ?_, ?_⟩, ?_⟩
  · rw [htr, hlen]
  · rw [hpair, hlen]
  · rw [hpair]
  · intro mem2 sid2 tid2 hnone
    simp only [rollbackToState]
    rw [hnone]

/-- C7 (witness): rolling a three-entry session back to its middle entry keeps
two entries and discards one; rolling back to an unknown id fails without
mutating the memory. -/
theorem c7_witness :
    (findIdxA (fun r => r.task_id = "t2")
       (getSessionHistory [("s", [⟨"s", "t1", ""⟩, ⟨"s", "t2", ""⟩, ⟨"s", "t3", ""⟩])] ("s")) =
       some 1) ∧
    ((getSessionHistory
        (rollbackToState [("s", [⟨"s", "t1", ""⟩, ⟨"s", "t2", ""⟩, ⟨"s", "t3", ""⟩])] ("s") ("t2")).1
        ("s")).length = 2 ∧
     (rollbackToState [("s", [⟨"s", "t1", ""⟩, ⟨"s", "t2", ""⟩, ⟨"s", "t3", ""⟩])] ("s") ("t2")).2.states_removed =
       some 1 ∧
     (rollbackToState [("s", [⟨"s", "t1", ""⟩, ⟨"s", "t2", ""⟩, ⟨"s", "t3", ""⟩])] ("s") ("t2")).2.success = true) ∧
    rollbackToState [("s", [⟨"s", "t1", ""⟩, ⟨"s", "t2", ""⟩, ⟨"s", "t3", ""⟩])] ("s") ("zz") =
      ([("s", [⟨"s", "t1", ""⟩, ⟨"s", "t2", ""⟩, ⟨"s", "t3", ""⟩])],
       { success := false, error := some ("Target state not found") }) := by
  have h := c7_rollback [("s", [⟨"s", "t1", ""⟩, ⟨"s", "t2", ""⟩, ⟨"s", "t3", ""⟩])] ("s") ("t2") 1
    (by decide)
  exact ⟨by decide, ⟨h.1.2.1, h.1.2.2.1, h.1.2.2.2⟩,
    h.2 [("s", [⟨"s", "t1", ""⟩, ⟨"s", "t2", ""⟩, ⟨"s", "t3", ""⟩])] ("s") ("zz") (by decide)⟩

/-! ## C10: batch aggregation semantics. -/

theorem countP_total {α : Type} (p : α → Bool) (l : List α) :
    l.countP p + l.countP (fun a => !p a) = l.length := by
  induction l with
  | nil => rfl
  | cons a l ih =>
    by_cases h : p a <;> simp [List.countP_cons, h] <;> omega

theorem execBatchGo_length (base : List String) :
    ∀ (st : AgentState) (ids : List String), ((execBatchGo base st ids).2).length = ids.length := by
  intro st ids
  induction ids generalizing st with
  | nil => rfl
  | cons id rest ih => simp [execBatchGo, ih]

/-- C10 (confirmed): the aggregate result of `store_batch_tasks` and
`execute_batch_tasks` carries `success = true` unconditionally — whatever the
per-item outcomes — with per-item failures visible only in the counts and the
per-item result list: `tasks_executed`/`tasks_failed` are exactly the counts of
succeeding/failing per-item results and sum to the number of submitted ids.
The final two conjuncts exhibit a batch whose every item fails (unknown ids)
yet whose aggregate result still reports `success = true`. -/
theorem c10_batch_aggregate (base : List String) (st : AgentState)
    (tasks : List TaskRec) (ids : List String) :
    (storeBatchTasks base st tasks).2.success = true ∧
    (storeBatchTasks base st tasks).2.tasks_stored =
      (storeBatchTasks base st tasks).2.task_ids.length ∧
    (executeBatchTasks base st ids).2.success = true ∧
    (executeBatchTasks base st ids).2.tasks_executed =
      ((executeBatchTasks base st ids).2.detailed_results).countP (fun r => r.success) ∧
    (executeBatchTasks base st ids).2.tasks_failed =
      ((executeBatchTasks base st ids).2.detailed_results).countP (fun r => !r.success) ∧
    (executeBatchTasks base st ids).2.tasks_executed +
      (executeBatchTasks base st ids).2.tasks_failed = ids.length ∧
    ((executeBatchTasks base st ids).2.detailed_results).length = ids.length ∧
    (executeBatchTasks ["proj"] ⟨[], [], 0, 0⟩ ["ghost1", "ghost2"]).2.success = true ∧
    (executeBatchTasks ["proj"] ⟨[], [], 0, 0⟩ ["ghost1", "ghost2"]).2.tasks_failed = 2 ∧
    (executeBatchTasks ["proj"] ⟨[], [], 0, 0⟩ ["ghost1", "ghost2"]).2.tasks_executed = 0 := by
  have hlen : ((execBatchGo base st ids).2).length = ids.length := execBatchGo_length base st ids
  refine ⟨rfl, rfl, rfl, rfl, rfl, ?_, ?_, by decide, by decide, by decide⟩
  · show ((execBatchGo base st ids).2).countP (fun r => r.success) +
      ((execBatchGo base st ids).2).countP (fun r => !r.success) = ids.length
    rw [countP_total, hlen]
  · exact hlen

/-! ## C2: `store_task` semantics and (non-)atomicity. -/

def c2Rec : TaskRec :=
  { type := "file_creation"
    target := "a.txt"
    content := TContent.cstr ("hi")
    status := some ("pending") }

def c2Stored : TaskRec :=
  { c2Rec with task_id := some (freshId 0), stored_at := some (timeStamp 0) }

/-- C2 (counterexample): while `store_task` runs on a concrete record, the
task's keyed file is observable with content "" — the truncation performed by
`open(..., 'w')` before `json.dump` streams the record.  That observable state
differs from the completed serialization and does not even parse, so a reader
of the store can observe a partially written record; the write is in-place
truncate-then-write, not write-to-temp-then-rename. -/
theorem c2_counterexample :
    (storeTaskSteps c2Rec 0 0).head? = some ("") ∧
    (storeTaskSteps c2Rec 0 0).getLast? = some (serializeTask c2Stored) ∧
    ("" : String) ≠ serializeTask c2Stored ∧
    jsonParseObj ("") = none := by decide

/-- C2 (amended): `store_task` assigns a fresh id when the record has none
(keeping an existing one), sets/overwrites `stored_at`, reports success with
that id, and leaves the finalized record readable at its keyed location — but
the serialization is not atomic: the write trace of the keyed file passes
through the truncated (empty, partial) state before the completed record. -/
theorem c2_store_semantics (base : List String) (st : AgentState) (rec : TaskRec) :
    (storeTask base st rec).2.success = true ∧
    (storeTask base st rec).2.task_id = some (rec.task_id.getD (freshId st.nextId)) ∧
    lookupA (storeTask base st rec).1.store (rec.task_id.getD (freshId st.nextId)) =
      some { rec with
             task_id := some (rec.task_id.getD (freshId st.nextId))
             stored_at := some (timeStamp st.now) } ∧
    storeTaskSteps rec st.nextId st.now =
      ["",
       serializeTask { rec with
                       task_id := some (rec.task_id.getD (freshId st.nextId))
                       stored_at := some (timeStamp st.now) }] := by
  refine ⟨rfl, rfl, ?_, rfl⟩
  exact lookupA_setA_self ..

/-! ## C5: external generation required but no generator configured. -/

def c5State : ProcState :=
  { agent := ⟨[], [], 0, 0⟩
    planner := none
    stats := ⟨0, 0, 0⟩ }

set_option maxRecDepth 8000 in
/-- C5 (counterexample): for the request "Create a creative html page" the
dispatcher decides external generation is required ("creative" matches) and no
generator is configured — yet `process_user_request` does not return a
descriptive failure: control falls into the rule-based branch, which stores
and executes the canned `index.html` creation, reports `success = true`, and
mutates the file system. -/
theorem c5_counterexample :
    shouldUseLlm ("Create a creative html page") = true ∧
    c5State.planner = none ∧
    ((processUserRequest ["proj"] c5State ("Create a creative html page")).2.1.map
      (fun r => r.success)) = some true ∧
    lookupA (processUserRequest ["proj"] c5State ("Create a creative html page")).1.agent.fs
      ["proj", "index.html"] = some ruleHtmlContent := by
  refine ⟨by decide, rfl, by decide, by decide⟩

/-- C5 (amended): when external generation is judged necessary but no
generator is configured, control falls to the rule-based branch; whenever the
rule-based path additionally matches no rule (the request does not contain
both "create" and "html"), the outcome is the descriptive failure
`success = false` with the no-rule error, the external planner is never
invoked, and neither the store nor the file system is touched (only the
request counters advance, the request being counted as rule-based). -/
theorem c5_no_planner_failure (base : List String) (ps : ProcState) (request : String)
    (hplan : ps.planner = none)
    (hllm : shouldUseLlm request = true)
    (hnorule : (containsN (listLower (codes request)) (codes ("create")) &&
                containsN (listLower (codes request)) (codes ("html"))) = false) :
    (processUserRequest base ps request).2.1 =
      some { success := false, error := some ("No rule matched, LLM needed but not available") } ∧
    (processUserRequest base ps request).2.2 = 0 ∧
    (processUserRequest base ps request).1.agent = ps.agent ∧
    (processUserRequest base ps request).1.stats =
      { total_requests := ps.stats.total_requests + 1
        llm_requests := ps.stats.llm_requests
        rule_based_requests := ps.stats.rule_based_requests + 1 } := by
  refine ⟨?_, ?_, ?_, ?_⟩ <;>
    simp [processUserRequest, hplan, hllm, processRuleBased, hnorule]

/-- C5 (witness): the amended theorem applied to the concrete request
"design something" (creative keyword, no matching rule) with no generator. -/
theorem c5_witness :
    (c5State.planner = none ∧
     shouldUseLlm ("design something") = true ∧
     (containsN (listLower (codes ("design something"))) (codes ("create")) &&
      containsN (listLower (codes ("design something"))) (codes ("html"))) = false) ∧
    ((processUserRequest ["proj"] c5State ("design something")).2.1 =
       some { success := false, error := some ("No rule matched, LLM needed but not available") } ∧
     (processUserRequest ["proj"] c5State ("design something")).2.2 = 0 ∧
     (processUserRequest ["proj"] c5State ("design something")).1.agent = c5State.agent ∧
     (processUserRequest ["proj"] c5State ("design something")).1.stats =
       { total_requests := 1, llm_requests := 0, rule_based_requests := 1 }) := by
  have h := c5_no_planner_failure ["proj"] c5State ("design something") rfl (by decide) (by decide)
  refine ⟨⟨rfl, by decide, by decide⟩, ⟨h.1, h.2.1, h.2.2.1, ?_⟩⟩
  rw [h.2.2.2]
  rfl

/-! ## C8: savings statistics. -/

/-- `CostTracker()` as constructed. -/
def newCostTracker : CostTracker := {}

/-- Tokens accumulated into `total_tokens_used` over a sequence of operations. -/
def sumUsed (ops : List OpRec) : Nat :=
  (ops.map (fun op => if op.used_ai then op.tokens_used else 0)).sum

/-- Tokens accumulated into `total_tokens_saved` over a sequence of operations. -/
def sumSaved (ops : List OpRec) : Nat :=
  (ops.map (fun op => if op.used_ai then 0 else op.tokens_saved)).sum

theorem foldRecord_operations (ops : List OpRec) :
    ∀ t : CostTracker, (ops.foldl recordOperation t).operations = t.operations ++ ops := by
  induction ops with
  | nil => intro t; simp
  | cons op rest ih =>
    intro t
    rw [List.foldl_cons, ih]
    simp [recordOperation]

theorem foldRecord_used (ops : List OpRec) :
    ∀ t : CostTracker, (ops.foldl recordOperation t).total_tokens_used =
      t.total_tokens_used + sumUsed ops := by
  induction ops with
  | nil => intro t; simp [sumUsed]
  | cons op rest ih =>
    intro t
    rw [List.foldl_cons, ih]
    by_cases h : op.used_ai <;> simp [recordOperation, sumUsed, h] <;> omega

theorem foldRecord_saved (ops : List OpRec) :
    ∀ t : CostTracker, (ops.foldl recordOperation t).total_tokens_saved =
      t.total_tokens_saved + sumSaved ops := by
  induction ops with
  | nil => intro t; simp [sumSaved]
  | cons op rest ih =>
    intro t
    rw [List.foldl_cons, ih]
    by_cases h : op.used_ai <;> simp [recordOperation, sumSaved, h] <;> omega

/-- C8 (amended): after any sequence of recorded operations, `get_statistics`
reports `total_operations` equal to the number of operations, `ai_operations`
those with `used_ai`, `non_ai_operations` the rest, the token totals as the
sums accumulated by `record_operation` — and a savings percentage that is
token-based, `round(tokens_saved / (tokens_used + tokens_saved) × 100, 2)`,
with `0` whenever no tokens were recorded (in particular when no operations
were recorded at all).  The operation-count ratio named by the claim is what
the processor's `get_optimization_summary` reports instead:
`rule_based_requests / total_requests × 100`, `0` with no requests. -/
theorem c8_statistics (ops : List OpRec) (s : ProcStats) :
    (getStatistics (ops.foldl recordOperation newCostTracker)).total_operations = ops.length ∧
    (getStatistics (ops.foldl recordOperation newCostTracker)).ai_operations =
      ops.countP (fun op => op.used_ai) ∧
    (getStatistics (ops.foldl recordOperation newCostTracker)).non_ai_operations =
      ops.length - ops.countP (fun op => op.used_ai) ∧
    (getStatistics (ops.foldl recordOperation newCostTracker)).tokens_used = sumUsed ops ∧
    (getStatistics (ops.foldl recordOperation newCostTracker)).tokens_saved = sumSaved ops ∧
    (getStatistics (ops.foldl recordOperation newCostTracker)).cost_savings_percentage =
      (if 0 < sumUsed ops + sumSaved ops
       then round2 ((sumSaved ops : ℚ) / ((sumUsed ops + sumSaved ops : Nat) : ℚ) * 100)
       else 0) ∧
    (ops = [] →
      (getStatistics (ops.foldl recordOperation newCostTracker)).cost_savings_percentage = 0) ∧
    (s.total_requests = 0 → (getOptimizationSummary s).cost_savings_percentage = 0) ∧
    (s.total_requests ≠ 0 → (getOptimizationSummary s).cost_savings_percentage =
      (s.rule_based_requests : ℚ) / (s.total_requests : ℚ) * 100) := by
  have hops : (ops.foldl recordOperation newCostTracker).operations = ops := by
    rw [foldRecord_operations]
    simp [newCostTracker]
  have hused : (ops.foldl recordOperation newCostTracker).total_tokens_used = sumUsed ops := by
    rw [foldRecord_used]
    simp [newCostTracker]
  have hsaved : (ops.foldl recordOperation newCostTracker).total_tokens_saved = sumSaved ops := by
    rw [foldRecord_saved]
    simp [newCostTracker]
  refine ⟨?_, ?_, ?_, ?_, ?_, ?_, ?_, ?_, ?_⟩
  · simp [getStatistics, hops]
  · simp [getStatistics, hops]
  · simp [getStatistics, hops]
  · simp [getStatistics, hused]
  · simp [getStatistics, hsaved]
  · simp [getStatistics, hused, hsaved]
  · intro he
    subst he
    rfl
  · intro h0
    simp [getOptimizationSummary, h0]
  · intro h0
    simp [getOptimizationSummary, h0]

def c8Ops : List OpRec :=
  [{ type := "ai_reasoning", used_ai := true },
   { type := "file_creation", used_ai := false, tokens_saved := 1500 }]

def c8Tracker : CostTracker := c8Ops.foldl recordOperation newCostTracker

/-- C8 (counterexample): after one AI operation (no tokens recorded) and one
rule-based operation that saved 1500 tokens, half of the operations are
rule-based, so the claimed operation-count formula gives 50 — but
`get_statistics` reports a savings percentage of 100, because it derives the
percentage from the token totals, not from the operation counts. -/
theorem c8_counterexample :
    (getStatistics c8Tracker).total_operations = 2 ∧
    (getStatistics c8Tracker).non_ai_operations = 1 ∧
    (getStatistics c8Tracker).cost_savings_percentage = 100 ∧
    ((getStatistics c8Tracker).non_ai_operations : ℚ) /
      ((getStatistics c8Tracker).total_operations : ℚ) * 100 = 50 ∧
    (getStatistics c8Tracker).cost_savings_percentage ≠
      ((getStatistics c8Tracker).non_ai_operations : ℚ) /
        ((getStatistics c8Tracker).total_operations : ℚ) * 100 := by
  have h1 : (getStatistics c8Tracker).total_operations = 2 := by decide
  have h2 : (getStatistics c8Tracker).non_ai_operations = 1 := by decide
  have h3 : (getStatistics c8Tracker).cost_savings_percentage = 100 := by
    have e : (getStatistics c8Tracker).cost_savings_percentage =
        round2 (((1500 : Nat) : ℚ) / ((1500 : Nat) : ℚ) * 100) := rfl
    rw [e]
    simp only [round2]
    norm_num
  have h4 : ((getStatistics c8Tracker).non_ai_operations : ℚ) /
      ((getStatistics c8Tracker).total_operations : ℚ) * 100 = 50 := by
    rw [h1, h2]
    norm_num
  refine ⟨h1, h2, h3, h4, ?_⟩
  rw [h3, h4]
  norm_num

/-- C8 (witness): the amended theorem applied to a concrete two-operation
sequence and concrete request counters. -/
theorem c8_witness :
    ((getStatistics (c8Ops.foldl recordOperation newCostTracker)).total_operations = 2 ∧
     (getStatistics (c8Ops.foldl recordOperation newCostTracker)).tokens_saved = sumSaved c8Ops) ∧
    ((⟨4, 1, 3⟩ : ProcStats).total_requests ≠ 0 ∧
     (getOptimizationSummary ⟨4, 1, 3⟩).cost_savings_percentage =
       ((3 : Nat) : ℚ) / ((4 : Nat) : ℚ) * 100) := by
  have h := c8_statistics c8Ops ⟨4, 1, 3⟩
  refine ⟨⟨h.1.trans rfl, h.2.2.2.2.1⟩, ⟨by decide, ?_⟩⟩
  exact h.2.2.2.2.2.2.2.2 (by decide)
